import Mathlib

set_option maxRecDepth 8192

/-!
Shallow embedding of `j2lint/linter/rule.py`: the abstract `Rule` base class,
its `__init_subclass__` validation hook, the `to_json` serialization, and the
`checkrule` dispatch algorithm.  Python exceptions are modelled with an
explicit exception type and `Except`; the mutable `self` of a rule instance is
threaded explicitly through `checkrule` as a configuration record.
-/

namespace J2Lint

/-- A Python exception as observed by `checkrule`: either the
`NotImplementedError` signal (caught by the dispatcher as the
not-applicable signal for `checktext`) or any other exception,
identified by a message. -/
inductive PyExc where
  | notImplementedError
  | other (msg : String)
deriving DecidableEq, Repr

/-- Python whitespace as stripped by `str.lstrip()` (ASCII range;
the inputs of this development are ASCII). -/
def pyIsSpace (c : Char) : Bool :=
  c = ' ' || c = '\t' || c = '\n' || c = '\r' || c = '\x0b' || c = '\x0c'

/-- `line.lstrip()` from the source, over ASCII text. -/
def pyLstrip (s : String) : String :=
  ⟨s.data.dropWhile pyIsSpace⟩

/-- `s.startswith("#")` from the source. -/
def startsWithHash (s : String) : Bool :=
  match s.data with
  | [] => false
  | c :: _ => c = '#'

/-- The comment-skip test of the line loop in `Rule.checkrule`:
`line.lstrip().startswith("#")`. -/
def skipLine (line : String) : Bool :=
  startsWithHash (pyLstrip line)

/-- `text.split("\n")` from the source (Python `str.split` with an explicit
separator): every occurrence of the separator produces a boundary, the
empty string yields `[""]`, and a trailing separator yields a trailing
empty field. -/
def pySplitAux : List Char → List Char → List (List Char)
  | [], acc => [acc.reverse]
  | c :: cs, acc =>
      if c = '\n' then acc.reverse :: pySplitAux cs []
      else pySplitAux cs (c :: acc)

/-- `text.split("\n")` on strings. -/
def pySplit (s : String) : List String :=
  (pySplitAux s.data []).map (fun l => ⟨l⟩)

/-- The read-only configuration fields a `Rule` instance carries
(`__init__` of `Rule`). -/
structure RuleConfig where
  ignore : Bool
  warn : List String
  origin : String
deriving DecidableEq, Repr

/-- A `Rule` instance as `checkrule` sees it: its configuration fields and its
two checking strategies.  The strategies receive the configuration (their
read-only view of `self`); they return either findings or raise an
exception.  `α` is the type of findings (`LinterError` values are opaque to
the dispatcher). -/
structure RuleInst (α : Type) where
  config : RuleConfig
  checktext : RuleConfig → String → String → Except PyExc (List α)
  checkline : RuleConfig → String → String → Nat → Except PyExc (List α)

/-- The `for index, line in enumerate(text.split("\n"))` loop of
`Rule.checkrule`, inside the `except NotImplementedError` handler: skip
comment lines, otherwise call `checkline` with the 1-based line number and
extend the accumulated findings.  Any exception raised by `checkline`
propagates (an exception raised inside an `except` block is not caught by
the same `try`). -/
def lineLoop {α : Type} (checkline : String → String → Nat → Except PyExc (List α))
    (path : String) : List (Nat × String) → List α → Except PyExc (List α)
  | [], errors => .ok errors
  | (index, line) :: rest, errors =>
      if skipLine line then lineLoop checkline path rest errors
      else
        match checkline path line (index + 1) with
        | .ok results => lineLoop checkline path rest (errors ++ results)
        | .error e => .error e

/-- `Rule.checkrule(self, file, text)` with the instance state threaded
explicitly: returns the result (findings or the propagated exception)
together with the instance configuration after the call.  `valid` is the
external predicate `is_valid_file_type` (defined in `j2lint/utils.py`,
outside this core), and `path` is `file["path"]`, the only key of the file
record the dispatcher consults. -/
def checkruleSt {α : Type} (rule : RuleInst α) (valid : String → Bool)
    (path : String) (text : String) : Except PyExc (List α) × RuleConfig :=
  if !(valid path) then (.ok [], rule.config)
  else
    match rule.checktext rule.config path text with
    | .ok results => (.ok ([] ++ results), rule.config)
    | .error .notImplementedError =>
        (lineLoop (rule.checkline rule.config) path (pySplit text).enum [], rule.config)
    | .error e => (.error e, rule.config)

/-- The value `Rule.checkrule` returns (or the exception it raises). -/
def checkrule {α : Type} (rule : RuleInst α) (valid : String → Bool)
    (path : String) (text : String) : Except PyExc (List α) :=
  (checkruleSt rule valid path text).1

/-- A Python attribute value as the validation hook inspects it: `None` or a
string (the only values the rule attributes take in this code base). -/
inductive PyVal where
  | pyNone
  | pyStr (s : String)
deriving DecidableEq, Repr

/-- `repr` of a `PyVal` as interpolated by an f-string: `None` prints as
`"None"`, a string interpolates as itself. -/
def pyValStr : PyVal → String
  | .pyNone => "None"
  | .pyStr s => s

/-- A concrete subclass of `Rule` as `__init_subclass__` inspects it: its
class name (for the `NotImplementedError` message) and, for each of the four
class attributes, whether `hasattr` holds and with which value. -/
structure SubclassDef where
  clsName : String
  rule_id : Option PyVal
  description : Option PyVal
  short_description : Option PyVal
  severity : Option PyVal
deriving DecidableEq, Repr

/-- `getattr(cls, attr)` for the four mandatory attributes
(`Option.none` models `hasattr(cls, attr) == False`). -/
def getAttr (cls : SubclassDef) : String → Option PyVal
  | "rule_id" => cls.rule_id
  | "description" => cls.description
  | "short_description" => cls.short_description
  | "severity" => cls.severity
  | _ => Option.none

/-- The `mandatory_attributes` list of `Rule.__init_subclass__`, in source
order. -/
def mandatory_attributes : List String :=
  ["rule_id", "description", "short_description", "severity"]

/-- Outcome of `Rule.__init_subclass__`: normal return, or one of the two
exceptions it raises. -/
inductive InitSubclassResult where
  | ok
  | notImplementedError (msg : String)
  | jinjaLinterError (msg : String)
deriving DecidableEq, Repr

/-- The severity message of `__init_subclass__`
(`f"Rule {cls.rule_id}: severity must be in ['LOW', 'MEDIUM', 'HIGH'],
{cls.severity} was provided"`). -/
def severityMsg (rule_id severity : Option PyVal) : String :=
  "Rule " ++ pyValStr (rule_id.getD .pyNone) ++
    ": severity must be in [\x27LOW\x27, \x27MEDIUM\x27, \x27HIGH\x27], " ++
    pyValStr (severity.getD .pyNone) ++ " was provided"

/-- `Rule.__init_subclass__`: raise `NotImplementedError` at the first
mandatory attribute the class lacks; then raise `JinjaLinterError` when
`cls.severity not in ["LOW", "MEDIUM", "HIGH"]`; otherwise return. -/
def initSubclass (cls : SubclassDef) : InitSubclassResult :=
  match mandatory_attributes.find? (fun attr => (getAttr cls attr).isNone) with
  | some attr =>
      .notImplementedError
        ("Class " ++ cls.clsName ++ " is missing required class attribute " ++ attr)
  | Option.none =>
      if cls.severity = some (.pyStr "LOW") ∨ cls.severity = some (.pyStr "MEDIUM")
          ∨ cls.severity = some (.pyStr "HIGH") then .ok
      else .jinjaLinterError (severityMsg cls.rule_id cls.severity)

/-! ### `Rule.to_json` and a JSON decoder for the round-trip property -/

/-- The five metadata fields `to_json` serializes (on a fully constructed
rule instance they are all strings). -/
structure RuleMeta where
  rule_id : String
  short_description : String
  description : String
  severity : String
  origin : String
deriving DecidableEq, Repr

/-- `json.dumps` escaping of one character (ASCII range, as in the strings of
this development). -/
def jsonEscapeChar (c : Char) : String :=
  if c = '"' then "\\\""
  else if c = '\\' then "\\\\"
  else if c = '\n' then "\\n"
  else if c = '\t' then "\\t"
  else if c = '\r' then "\\r"
  else String.singleton c

/-- `json.dumps` of a string. -/
def jsonStr (s : String) : String :=
  "\"" ++ String.join (s.data.map jsonEscapeChar) ++ "\""

/-- `json.dumps` of a dict with string keys and string values, in insertion
order, with the default separators `", "` and `": "`. -/
def jsonDumpsObj (fields : List (String × String)) : String :=
  "\x7b" ++ String.intercalate ", " (fields.map (fun kv => jsonStr kv.1 ++ ": " ++ jsonStr kv.2))
    ++ "\x7d"

/-- The association list `to_json` builds, in source (= insertion) order. -/
def to_json_fields (r : RuleMeta) : List (String × String) :=
  [("rule_id", r.rule_id),
   ("short_description", r.short_description),
   ("description", r.description),
   ("severity", r.severity),
   ("origin", r.origin)]

/-- `Rule.to_json`: `json.dumps` of the five-field dict. -/
def to_json (r : RuleMeta) : String :=
  jsonDumpsObj (to_json_fields r)

/-- JSON decoder, string body after the opening quote: returns the decoded
string and the remaining input past the closing quote. -/
def parseStrBody : List Char → Option (String × List Char)
  | [] => Option.none
  | '"' :: rest => some ("", rest)
  | '\\' :: c :: rest =>
      match (if c = '"' then some "\""
             else if c = '\\' then some "\\"
             else if c = 'n' then some "\n"
             else if c = 't' then some "\t"
             else if c = 'r' then some "\r"
             else Option.none) with
      | some esc =>
          match parseStrBody rest with
          | some (s, r) => some (esc ++ s, r)
          | Option.none => Option.none
      | Option.none => Option.none
  | c :: rest =>
      match parseStrBody rest with
      | some (s, r) => some (String.singleton c ++ s, r)
      | Option.none => Option.none

/-- Skip JSON whitespace. -/
def skipWs (cs : List Char) : List Char :=
  cs.dropWhile (fun c => c = ' ' || c = '\t' || c = '\n' || c = '\r')

/-- JSON decoder, one `"key": "value"` member. -/
def parseMember (cs : List Char) : Option ((String × String) × List Char) :=
  match skipWs cs with
  | '"' :: rest =>
      match parseStrBody rest with
      | some (k, r1) =>
          match skipWs r1 with
          | ':' :: r2 =>
              match skipWs r2 with
              | '"' :: r3 =>
                  match parseStrBody r3 with
                  | some (v, r4) => some ((k, v), r4)
                  | Option.none => Option.none
              | _ => Option.none
          | _ => Option.none
      | Option.none => Option.none
  | _ => Option.none

/-- JSON decoder, members after the first: fuel-bounded loop over
`, "key": "value"` continuations up to the closing brace. -/
def parseMembersRest (fuel : Nat) (cs : List Char) :
    Option (List (String × String) × List Char) :=
  match fuel with
  | 0 => Option.none
  | fuel + 1 =>
      match skipWs cs with
      | '\x7d' :: rest => some ([], rest)
      | ',' :: rest =>
          match parseMember rest with
          | some (kv, r1) =>
              match parseMembersRest fuel r1 with
              | some (kvs, r2) => some (kv :: kvs, r2)
              | Option.none => Option.none
          | Option.none => Option.none
      | _ => Option.none

/-- JSON decoder for a flat object with string keys and string values, as
`json.loads` decodes the output of `to_json`: yields the key/value pairs in
textual order.  Fails (`Option.none`) on anything but a complete object. -/
def jsonLoadsObj (s : String) : Option (List (String × String)) :=
  match skipWs s.data with
  | '\x7b' :: rest =>
      match skipWs rest with
      | '\x7d' :: r1 => if skipWs r1 = [] then some [] else Option.none
      | _ =>
          match parseMember rest with
          | some (kv, r1) =>
              match parseMembersRest (r1.length + 1) r1 with
              | some (kvs, r2) => if skipWs r2 = [] then some (kv :: kvs) else Option.none
              | Option.none => Option.none
          | Option.none => Option.none
  | _ => Option.none

/-! ### Helper lemmas about the dispatch loop and line splitting -/

/-- The findings the line loop accumulates when `checkline` is a pure
function `f`: skipped lines contribute nothing, every other line
contributes `f path line (index + 1)` in order. -/
def pureFindings {α : Type} (f : String → String → Nat → List α) (path : String) :
    List (Nat × String) → List α
  | [] => []
  | (i, line) :: rest =>
      if skipLine line then pureFindings f path rest
      else f path line (i + 1) ++ pureFindings f path rest

theorem lineLoop_pure {α : Type} (f : String → String → Nat → List α) (path : String)
    (pairs : List (Nat × String)) (errors : List α) :
    lineLoop (fun p l n => .ok (f p l n)) path pairs errors =
      .ok (errors ++ pureFindings f path pairs) := by
  induction pairs generalizing errors with
  | nil => simp [lineLoop, pureFindings]
  | cons p rest ih =>
      obtain ⟨i, line⟩ := p
      by_cases h : skipLine line <;>
        simp [lineLoop, pureFindings, h, ih, List.append_assoc]

theorem pureFindings_eq_filter_flatMap {α : Type} (f : String → String → Nat → List α)
    (path : String) (pairs : List (Nat × String)) :
    pureFindings f path pairs =
      (pairs.filter (fun p => !skipLine p.2)).flatMap (fun p => f path p.2 (p.1 + 1)) := by
  induction pairs with
  | nil => simp [pureFindings]
  | cons p rest ih =>
      obtain ⟨i, line⟩ := p
      by_cases h : skipLine line <;> simp [pureFindings, h, ih, List.filter_cons]

theorem lineLoop_const_error {α : Type} (e : PyExc) (path : String)
    (pairs : List (Nat × String)) (errors : List α)
    (h : ∃ p ∈ pairs, skipLine p.2 = false) :
    lineLoop (fun _ _ _ => .error e) path pairs errors = .error e := by
  induction pairs generalizing errors with
  | nil => simp at h
  | cons p rest ih =>
      obtain ⟨i, line⟩ := p
      by_cases hs : skipLine line
      · obtain ⟨q, hq, hqs⟩ := h
        rcases List.mem_cons.mp hq with rfl | hmem
        · simp [hs] at hqs
        · simp [lineLoop, hs]
          exact ih errors ⟨q, hmem, hqs⟩
      · simp [lineLoop, hs]

theorem pySplitAux_append_newline (cs : List Char) (acc : List Char) :
    pySplitAux (cs ++ ['\n']) acc = pySplitAux cs acc ++ [[]] := by
  induction cs generalizing acc with
  | nil => simp [pySplitAux]
  | cons c cs ih =>
      by_cases h : c = '\n' <;> simp [pySplitAux, h, ih]

theorem pySplit_append_newline (s : String) :
    pySplit (s ++ "\n") = pySplit s ++ [""] := by
  unfold pySplit
  rw [String.data_append]
  have hd : "\n".data = ['\n'] := rfl
  rw [hd, pySplitAux_append_newline]
  simp

theorem pureFindings_append {α : Type} (f : String → String → Nat → List α) (path : String)
    (p1 p2 : List (Nat × String)) :
    pureFindings f path (p1 ++ p2) = pureFindings f path p1 ++ pureFindings f path p2 := by
  induction p1 with
  | nil => simp [pureFindings]
  | cons p rest ih =>
      obtain ⟨i, line⟩ := p
      by_cases h : skipLine line <;> simp [pureFindings, h, ih]

theorem enum_append_singleton {α : Type} (l : List α) (x : α) :
    (l ++ [x]).enum = l.enum ++ [(l.length, x)] := by
  simp [List.enum, List.enumFrom_append]

/-! ### Concrete fixtures for witnesses and counterexamples -/

/-- Default configuration of a rule instance
(`ignore=False, warn=[], origin="BUILT-IN"`, the `__init__` defaults). -/
def cfg0 : RuleConfig := { ignore := false, warn := [], origin := "BUILT-IN" }

/-- A rule implementing only `checkline`; `checkline` records its invocations
as findings `(line_no, line)`. -/
def lineOnlyRule : RuleInst (Nat × String) :=
  { config := cfg0,
    checktext := fun _ _ _ => .error .notImplementedError,
    checkline := fun _ _ l n => .ok [(n, l)] }

/-- A rule implementing only `checktext`, which returns the fixed finding
list `[42]`; its `checkline` would raise a non-signal exception if it were
ever invoked. -/
def textOnlyRule : RuleInst Nat :=
  { config := cfg0,
    checktext := fun _ _ _ => .ok [42],
    checkline := fun _ _ _ _ => .error (.other "checkline must not be invoked") }

/-- A rule implementing neither strategy: both methods raise
`NotImplementedError`. -/
def neitherRule : RuleInst Nat :=
  { config := cfg0,
    checktext := fun _ _ _ => .error .notImplementedError,
    checkline := fun _ _ _ _ => .error .notImplementedError }

/-- A rule whose `checktext` raises a genuine (non-signal) exception. -/
def textFailRule : RuleInst Nat :=
  { config := cfg0,
    checktext := fun _ _ _ => .error (.other "boom"),
    checkline := fun _ _ _ _ => .ok [] }

/-- A rule whose `checktext` signals not-applicable and whose `checkline`
raises a genuine (non-signal) exception. -/
def lineFailRule : RuleInst Nat :=
  { config := cfg0,
    checktext := fun _ _ _ => .error .notImplementedError,
    checkline := fun _ _ _ _ => .error (.other "boom") }

/-- The rule metadata of claim C8 (the built-in `S0` rule). -/
def s0Meta : RuleMeta :=
  { rule_id := "S0",
    short_description := "jinja-syntax-error",
    description := "Jinja syntax should be correct",
    severity := "HIGH",
    origin := "BUILT-IN" }

/-- A well-formed subclass definition except that `description` is absent. -/
def clsMissingDescription : SubclassDef :=
  { clsName := "MyRule",
    rule_id := some (.pyStr "T0"),
    description := Option.none,
    short_description := some (.pyStr "my-rule"),
    severity := some (.pyStr "LOW") }

/-- A subclass definition with all four attributes present but
`severity = None`. -/
def clsBadSeverity : SubclassDef :=
  { clsName := "MyRule",
    rule_id := some (.pyStr "T0"),
    description := some (.pyStr "My rule"),
    short_description := some (.pyStr "my-rule"),
    severity := some .pyNone }

/-! ### Claim theorems -/


instance {e a : Type} [DecidableEq e] [DecidableEq a] : DecidableEq (Except e a) :=
  fun x y =>
    match x, y with
    | .ok u, .ok v => if h : u = v then .isTrue (by rw [h]) else .isFalse (by simp [h])
    | .error u, .error v => if h : u = v then .isTrue (by rw [h]) else .isFalse (by simp [h])
    | .ok _, .error _ => .isFalse (by simp)
    | .error _, .ok _ => .isFalse (by simp)

/-- Does an `__init_subclass__` outcome raise the missing-attribute
`NotImplementedError`? -/
def isMissingAttrError : InitSubclassResult → Bool
  | .notImplementedError _ => true
  | _ => false

/-- Does an `__init_subclass__` outcome raise (either configuration error)? -/
def isConfigFailure : InitSubclassResult → Bool
  | .ok => false
  | _ => true

/-- Claim C1: for a rule whose whole-text strategy signals not-applicable,
`checkrule` on a checkable file splits the text on line-feed boundaries,
skips exactly the lines whose first non-whitespace character is a hash,
and invokes `checkline` with the file path, the line text and the line's
1-based position in the original split (skipped lines still count toward
numbering), appending the returned findings in line order. -/
theorem checkrule_line_fallback {α : Type} (rule : RuleInst α) (valid : String → Bool)
    (path text : String) (f : String → String → Nat → List α)
    (hv : valid path = true)
    (hct : rule.checktext rule.config path text = .error .notImplementedError)
    (hcl : rule.checkline rule.config = fun p l n => .ok (f p l n)) :
    checkrule rule valid path text =
      .ok ((((pySplit text).enum).filter (fun p => !skipLine p.2)).flatMap
            (fun p => f path p.2 (p.1 + 1))) := by
  simp only [checkrule, checkruleSt, hv, Bool.not_true, Bool.false_eq_true, if_false, hct]
  rw [hcl, lineLoop_pure, pureFindings_eq_filter_flatMap]
  simp

/-- Witness for C1: on the text `"a\n#b\nc"` only lines 1 and 3 are
checked, with 1-based line numbers. -/
theorem checkrule_line_fallback_witness :
    checkrule lineOnlyRule (fun _ => true) "t.j2" "a\n#b\nc" = .ok [(1, "a"), (3, "c")] := by
  have h := checkrule_line_fallback lineOnlyRule (fun _ => true) "t.j2" "a\n#b\nc"
    (fun _ l n => [(n, l)]) rfl rfl rfl
  rw [h]
  decide

/-- Claim C2: for a rule whose `checktext` returns a list without signalling
not-applicable, `checkrule` on a checkable file returns exactly that list
and never invokes `checkline` (the result is independent of the `checkline`
strategy), regardless of the text's content. -/
theorem checkrule_text_strategy {α : Type} (rule : RuleInst α) (valid : String → Bool)
    (path text : String) (res : List α)
    (hv : valid path = true)
    (hct : rule.checktext rule.config path text = .ok res) :
    checkrule rule valid path text = .ok res ∧
      ∀ cl, checkrule { rule with checkline := cl } valid path text = .ok res := by
  constructor
  · simp [checkrule, checkruleSt, hv, hct]
  · intro cl
    simp [checkrule, checkruleSt, hv, hct]

/-- Witness for C2: a text-only rule applied to a text full of comment
markers yields exactly the `checktext` findings, also after replacing the
`checkline` strategy. -/
theorem checkrule_text_strategy_witness :
    checkrule textOnlyRule (fun _ => true) "t.j2" "#a\nb\n#c" = .ok [42] ∧
      checkrule { textOnlyRule with checkline := fun _ _ _ _ => .ok [7] }
        (fun _ => true) "t.j2" "#a\nb\n#c" = .ok [42] :=
  ⟨(checkrule_text_strategy textOnlyRule (fun _ => true) "t.j2" "#a\nb\n#c" [42] rfl rfl).1,
   (checkrule_text_strategy textOnlyRule (fun _ => true) "t.j2" "#a\nb\n#c" [42] rfl rfl).2 _⟩

/-- Counterexample to C3 as stated: for a rule whose `checktext` and
`checkline` both raise `NotImplementedError`, `checkrule` on a checkable
file with a non-skipped line does NOT return an empty list: the
`NotImplementedError` raised by `checkline` inside the `except` handler
propagates out of `checkrule`. -/
theorem checkrule_neither_strategy_counterexample :
    checkrule neitherRule (fun _ => true) "t.j2" "a" = .error .notImplementedError ∧
      checkrule neitherRule (fun _ => true) "t.j2" "a" ≠ .ok [] := by
  constructor
  · rfl
  · decide

/-- Claim C3, amended: for a rule whose `checktext` and `checkline` both
signal not-applicable, `checkrule` on a checkable file whose text has at
least one non-skipped line raises: the `NotImplementedError` from
`checkline` propagates out of the dispatcher (an exception raised inside
an `except` block is not caught by the same `try`). -/
theorem checkrule_neither_strategy_propagates {α : Type} (rule : RuleInst α)
    (valid : String → Bool) (path text : String)
    (hv : valid path = true)
    (hct : rule.checktext rule.config path text = .error .notImplementedError)
    (hcl : rule.checkline rule.config = fun _ _ _ => .error .notImplementedError)
    (hline : ∃ p ∈ (pySplit text).enum, skipLine p.2 = false) :
    checkrule rule valid path text = .error .notImplementedError := by
  simp only [checkrule, checkruleSt, hv, Bool.not_true, Bool.false_eq_true, if_false, hct]
  rw [hcl]
  exact lineLoop_const_error _ _ _ _ hline

/-- Witness for the amended C3 at the one-line text `"x"`. -/
theorem checkrule_neither_strategy_witness :
    checkrule neitherRule (fun _ => true) "w.j2" "x" = .error .notImplementedError :=
  checkrule_neither_strategy_propagates neitherRule (fun _ => true) "w.j2" "x" rfl rfl rfl
    (by decide)

/-- Claim C4: for every rule and every file whose path is not a checkable
file type, `checkrule` returns an empty list immediately, without raising;
the result does not depend on the rule, so neither strategy is invoked. -/
theorem checkrule_invalid_file_type {α : Type} (valid : String → Bool) (path : String)
    (h : valid path = false) (rule : RuleInst α) (text : String) :
    checkrule rule valid path text = .ok [] := by
  simp [checkrule, checkruleSt, h]

/-- Witness for C4: even a rule whose both strategies raise produces the
empty finding list on a non-checkable file. -/
theorem checkrule_invalid_file_type_witness :
    checkrule neitherRule (fun _ => false) "x.txt" "a\nb" = .ok [] :=
  checkrule_invalid_file_type (fun _ => false) "x.txt" rfl neitherRule "a\nb"

/-- Claim C5: a concrete subclass of `Rule` missing any of the four
mandatory class attributes `rule_id`, `description`, `short_description`,
`severity` fails at class-definition time: `__init_subclass__` raises the
missing-attribute configuration error before any file is scanned. -/
theorem initSubclass_missing_attribute (cls : SubclassDef)
    (h : ∃ attr ∈ mandatory_attributes, getAttr cls attr = Option.none) :
    isMissingAttrError (initSubclass cls) = true := by
  have h2 : (mandatory_attributes.find? (fun attr => (getAttr cls attr).isNone)).isSome := by
    rw [List.find?_isSome]
    obtain ⟨a, ha, he⟩ := h
    exact ⟨a, ha, by simp [he]⟩
  obtain ⟨a, hfa⟩ := Option.isSome_iff_exists.mp h2
  unfold initSubclass
  rw [hfa]
  rfl

/-- Witness for C5: a subclass with `description` absent fails. -/
theorem initSubclass_missing_attribute_witness :
    isMissingAttrError (initSubclass clsMissingDescription) = true :=
  initSubclass_missing_attribute clsMissingDescription (by decide)

/-- Claim C6: a concrete subclass of `Rule` whose `severity` attribute is
present but is not one of `"LOW"`, `"MEDIUM"`, `"HIGH"` (including the
unset `None` value) fails at class-definition time with a configuration
error; when the other mandatory attributes are present, that error is the
`JinjaLinterError` naming the offending rule's `rule_id`. -/
theorem initSubclass_invalid_severity (cls : SubclassDef) (v : PyVal)
    (hsev : cls.severity = some v)
    (hbad : v ∉ ([.pyStr "LOW", .pyStr "MEDIUM", .pyStr "HIGH"] : List PyVal)) :
    isConfigFailure (initSubclass cls) = true ∧
      ((cls.rule_id.isSome && cls.description.isSome && cls.short_description.isSome) = true →
        initSubclass cls = .jinjaLinterError (severityMsg cls.rule_id cls.severity)) := by
  simp only [List.mem_cons, List.mem_singleton, not_or] at hbad
  obtain ⟨hb1, hb2, hb3, -⟩ := hbad
  have hcond : ¬(cls.severity = some (.pyStr "LOW") ∨ cls.severity = some (.pyStr "MEDIUM")
      ∨ cls.severity = some (.pyStr "HIGH")) := by
    rw [hsev]
    rintro (h | h | h) <;> injection h with h <;>
      first
        | exact hb1 h
        | exact hb2 h
        | exact hb3 h
  constructor
  · unfold initSubclass
    cases hf : mandatory_attributes.find? (fun attr => (getAttr cls attr).isNone) with
    | some a => rfl
    | none =>
        rw [if_neg hcond]
        rfl
  · intro hpresent
    simp only [Bool.and_eq_true] at hpresent
    obtain ⟨⟨h1, h2⟩, h3⟩ := hpresent
    have hf : mandatory_attributes.find? (fun attr => (getAttr cls attr).isNone)
        = Option.none := by
      rw [List.find?_eq_none]
      intro x hx
      simp only [mandatory_attributes, List.mem_cons, List.mem_singleton] at hx
      rcases hx with rfl | rfl | rfl | rfl | hfalse
      · simp [getAttr, Option.isNone_eq_false_iff, Option.isSome_iff_ne_none.mp h1]
      · simp [getAttr, Option.isNone_eq_false_iff, Option.isSome_iff_ne_none.mp h2]
      · simp [getAttr, Option.isNone_eq_false_iff, Option.isSome_iff_ne_none.mp h3]
      · simp [getAttr, hsev]
      · exact absurd hfalse (by simp)
    unfold initSubclass
    rw [hf, if_neg hcond]

/-- Witness for C6: a subclass with `severity = None` fails with the
`JinjaLinterError` naming rule `T0`. -/
theorem initSubclass_invalid_severity_witness :
    isConfigFailure (initSubclass clsBadSeverity) = true ∧
      initSubclass clsBadSeverity =
        .jinjaLinterError (severityMsg clsBadSeverity.rule_id clsBadSeverity.severity) :=
  ⟨(initSubclass_invalid_severity clsBadSeverity .pyNone rfl (by decide)).1,
   (initSubclass_invalid_severity clsBadSeverity .pyNone rfl (by decide)).2 (by decide)⟩

/-- Claim C7: any exception other than the not-applicable signal raised by
`checktext`, and any such exception raised by `checkline` on a reached
line, propagates out of `checkrule` unmodified: the dispatcher neither
catches, retries, nor suppresses it. -/
theorem checkrule_error_propagation {α : Type} (rule : RuleInst α) (valid : String → Bool)
    (path text : String) (m : String)
    (hv : valid path = true) :
    (rule.checktext rule.config path text = .error (.other m) →
        checkrule rule valid path text = .error (.other m)) ∧
      (rule.checktext rule.config path text = .error .notImplementedError →
        rule.checkline rule.config = (fun _ _ _ => .error (.other m)) →
        (∃ p ∈ (pySplit text).enum, skipLine p.2 = false) →
        checkrule rule valid path text = .error (.other m)) := by
  constructor
  · intro hct
    simp [checkrule, checkruleSt, hv, hct]
  · intro hct hcl hline
    simp only [checkrule, checkruleSt, hv, Bool.not_true, Bool.false_eq_true, if_false, hct]
    rw [hcl]
    exact lineLoop_const_error _ _ _ _ hline

/-- Witness for C7: a failing `checktext` and a failing `checkline` each
surface their exception unchanged. -/
theorem checkrule_error_propagation_witness :
    checkrule textFailRule (fun _ => true) "t.j2" "x" = .error (.other "boom") ∧
      checkrule lineFailRule (fun _ => true) "t.j2" "x" = .error (.other "boom") :=
  ⟨(checkrule_error_propagation textFailRule (fun _ => true) "t.j2" "x" "boom" rfl).1 rfl,
   (checkrule_error_propagation lineFailRule (fun _ => true) "t.j2" "x" "boom" rfl).2 rfl rfl
     (by decide)⟩

/-- Claim C8: `to_json` on the rule with `rule_id` `"S0"`, description
`"Jinja syntax should be correct"`, short description
`"jinja-syntax-error"`, severity `"HIGH"`, origin `"BUILT-IN"` produces
the record with exactly the five keys `rule_id`, `short_description`,
`description`, `severity`, `origin` in that order with exactly those
values, and JSON-decoding the produced text yields the same record back. -/
theorem to_json_s0_roundtrip :
    to_json s0Meta =
      "\x7b\"rule_id\": \"S0\", \"short_description\": \"jinja-syntax-error\", \"description\": \"Jinja syntax should be correct\", \"severity\": \"HIGH\", \"origin\": \"BUILT-IN\"\x7d" ∧
      to_json_fields s0Meta =
        [("rule_id", "S0"), ("short_description", "jinja-syntax-error"),
         ("description", "Jinja syntax should be correct"), ("severity", "HIGH"),
         ("origin", "BUILT-IN")] ∧
      jsonLoadsObj (to_json s0Meta) = some (to_json_fields s0Meta) := by
  refine ⟨by decide, by decide, by decide⟩

/-- Claim C9: `checkrule` leaves the rule instance's configuration fields
`ignore`, `warn` and `origin` unchanged for every rule and every
(file, text) input: the dispatch operation is side-effect-free on the
rule. -/
theorem checkrule_preserves_config {α : Type} (rule : RuleInst α) (valid : String → Bool)
    (path text : String) :
    (checkruleSt rule valid path text).2.ignore = rule.config.ignore ∧
      (checkruleSt rule valid path text).2.warn = rule.config.warn ∧
      (checkruleSt rule valid path text).2.origin = rule.config.origin := by
  have h : (checkruleSt rule valid path text).2 = rule.config := by
    unfold checkruleSt
    split
    · rfl
    · split <;> rfl
  rw [h]
  exact ⟨rfl, rfl, rfl⟩

/-- Claim C10: because the text is split with `split("\n")`, a text ending
in a line feed yields a final empty line that is passed to `checkline`
with the next line number (it is not dropped), and the empty text yields
exactly one `checkline` invocation, with line text `""` and line
number 1 (the invocations of the logging rule are its findings). -/
theorem checkrule_trailing_newline (valid : String → Bool) (path : String)
    (hv : valid path = true) (s : String) :
    checkrule lineOnlyRule valid path (s ++ "\n") =
      .ok (pureFindings (fun _ l n => [(n, l)]) path (pySplit s).enum ++
            [((pySplit s).length + 1, "")]) ∧
      checkrule lineOnlyRule valid path "" = .ok [(1, "")] := by
  constructor
  · have h1 : checkrule lineOnlyRule valid path (s ++ "\n") =
        .ok (pureFindings (fun _ l n => [(n, l)]) path (pySplit (s ++ "\n")).enum) := by
      simp only [checkrule, checkruleSt, hv, Bool.not_true, Bool.false_eq_true, if_false,
        lineOnlyRule]
      rw [lineLoop_pure]
      simp
    rw [h1, pySplit_append_newline, enum_append_singleton, pureFindings_append]
    have hs : skipLine "" = false := rfl
    simp [pureFindings, hs]
  · simp only [checkrule, checkruleSt, hv, Bool.not_true, Bool.false_eq_true, if_false,
      lineOnlyRule]
    rw [lineLoop_pure]
    rfl

/-- Witness for C10 at `s = "a"`. -/
theorem checkrule_trailing_newline_witness :
    checkrule lineOnlyRule (fun _ => true) "t.j2" ("a" ++ "\n") =
      .ok (pureFindings (fun _ l n => [(n, l)]) "t.j2" (pySplit "a").enum ++
            [((pySplit "a").length + 1, "")]) ∧
      checkrule lineOnlyRule (fun _ => true) "t.j2" "" = .ok [(1, "")] :=
  checkrule_trailing_newline (fun _ => true) "t.j2" rfl "a"


end J2Lint
